import Mathlib

/-!
Verification development for the MystBin backend.

This file gives a shallow embedding of the request-handling code in
src/mystbin/backend/main.py and the error models in
src/mystbin/backend/models/errors.py, together with spec-modelled
definitions of the admission controller and paste store (whose code is
referenced from main.py but lives outside the provided sources), and
proves properties of the embedded definitions.

Timestamps are modelled as natural numbers.
-/

namespace MystBin

/-- Process-wide request statistics, `app.state.request_stats` in main.py:
a dictionary with a `total` counter and a `latest` timestamp. -/
structure RequestStats where
  total : Nat
  latest : Nat
  deriving DecidableEq

/-- The `request_stats` HTTP middleware of main.py (lines 74-82): on every
request it increments `total` by one, and if the request path is not
"/admin/stats" it sets `latest` to the current time. -/
def request_stats (path : String) (now : Nat) (st : RequestStats) : RequestStats :=
  let st1 : RequestStats := { st with total := st.total + 1 }
  if path ≠ "/admin/stats" then { st1 with latest := now } else st1

/-- A sequence of handled requests, each a path paired with the time at
which the middleware observes it, applied in order. -/
def handleRequests : List (String × Nat) → RequestStats → RequestStats
  | [], st => st
  | r :: rs, st => handleRequests rs (request_stats r.1 r.2 st)

/-- The `app_startup` handler of main.py (lines 85-90): initializes
`request_stats` to total zero and latest the current (startup) time. -/
def app_startup (now : Nat) : RequestStats :=
  { total := 0, latest := now }

/-- Modelled from the spec: the administrative stats endpoint
`GetStats() -> (total_requests, latest_request_time)`; its handler (in the
admin router, not among the provided sources) reads the two fields of
`app.state.request_stats`. -/
def GetStats (st : RequestStats) : Nat × Nat :=
  (st.total, st.latest)

/-- The portion of the `MystbinApp` application object (main.py lines
50-68) that the claims are about: the `should_close` flag set by
`__init__`, plus the request statistics state. -/
structure MystbinApp where
  should_close : Bool
  stats : RequestStats
  deriving DecidableEq

/-- `MystbinApp.__init__` (which sets `self.should_close = False`)
followed by the `app_startup` event that installs the statistics state. -/
def mystbin_init (now : Nat) : MystbinApp :=
  { should_close := false, stats := app_startup now }

/-- The operations visible in main.py that mutate the application state:
handling a request (the `request_stats` middleware) and the startup
handler. Neither of them touches `should_close`. -/
inductive VisibleOp where
  | handle (path : String) (now : Nat) : VisibleOp
  | startup (now : Nat) : VisibleOp
  deriving DecidableEq

/-- Effect of one visible operation on the application state. -/
def applyOp (op : VisibleOp) (a : MystbinApp) : MystbinApp :=
  match op with
  | VisibleOp.handle p t => { a with stats := request_stats p t a.stats }
  | VisibleOp.startup t => { a with stats := app_startup t }

/-- Effect of a sequence of visible operations, applied in order. -/
def applyOps : List VisibleOp → MystbinApp → MystbinApp
  | [], a => a
  | op :: ops, a => applyOps ops (applyOp op a)

/-- State of `UvicornServer.main_loop` (main.py lines 141-148): the tick
counter and the `should_exit` variable controlling the while loop. -/
structure LoopState where
  counter : Nat
  shouldExit : Bool
  deriving DecidableEq

/-- The state before the while loop of `main_loop`: `counter = 0` and
`should_exit = await self.on_tick(counter)`. Note the initial check
consults only `on_tick`, not `should_close`. -/
def main_loop_init (on_tick : Nat → Bool) : LoopState :=
  { counter := 0, shouldExit := on_tick 0 }

/-- One iteration of the while loop of `main_loop`: if `should_exit` is
already set the loop body does not run; otherwise the counter is
incremented and reduced modulo 864000, and `should_exit` becomes
`await self.on_tick(counter) or self.config.app.should_close`, where
`should_close` is the value of the flag read during this iteration. -/
def main_loop_step (on_tick : Nat → Bool) (should_close : Bool) (s : LoopState) : LoopState :=
  if s.shouldExit then s
  else
    let c := (s.counter + 1) % 864000
    { counter := c, shouldExit := on_tick c || should_close }

/-- The loop state after `k` iterations of `main_loop`, where
`should_close j` is the value of the flag read during iteration `j`. -/
def main_loop_run (on_tick : Nat → Bool) (should_close : Nat → Bool) : Nat → LoopState
  | 0 => main_loop_init on_tick
  | k + 1 => main_loop_step on_tick (should_close k) (main_loop_run on_tick should_close k)

/-- The `Unauthorized` error model of models/errors.py. -/
structure Unauthorized where
  error : String := "Unauthorized"
  deriving DecidableEq

/-- The `Forbidden` error model of models/errors.py. -/
structure Forbidden where
  error : String := "Forbidden"
  deriving DecidableEq

/-- The `NotFound` error model of models/errors.py (lines 32-33): a single
field holding the constant string "Not Found"; the model carries no field
that could record why the lookup failed. -/
structure NotFound where
  error : String := "Not Found"
  deriving DecidableEq

/-- The `BadRequest` error model of models/errors.py. -/
structure BadRequest where
  error : String := "Bad Request"
  reason : Option String := none
  deriving DecidableEq

/-- State of one rate-limit window for an admission key. -/
structure RateLimitWindow where
  window_start : Nat
  count : Nat
  deriving DecidableEq

/-- Outcome of an admission decision: allow, or deny with a retry-after
duration. -/
inductive Decision where
  | allow : Decision
  | deny (retry_after : Nat) : Decision
  deriving DecidableEq

/-- Modelled from the spec: the admission controller's
`check_and_consume(key, route_class)` for one key; the rate-limiting code
(utils/ratelimits and the slowapi limiter wired in main.py lines 66-67)
is not among the provided sources. If no window exists for the key, or
the current time has advanced past `window_start + window_length`, the
window resets to `{window_start = now, count = 0}`; then `count` is
incremented; if `count` exceeds the configured ceiling the request is
denied with `retry_after = window_start + window_length - now`, otherwise
it is allowed. -/
def check_and_consume (ceiling window_length now : Nat)
    (w : Option RateLimitWindow) : Decision × RateLimitWindow :=
  let w0 : RateLimitWindow :=
    match w with
    | none => { window_start := now, count := 0 }
    | some win =>
      if now > win.window_start + window_length then { window_start := now, count := 0 }
      else win
  let w1 : RateLimitWindow := { w0 with count := w0.count + 1 }
  if w1.count > ceiling then (Decision.deny (w1.window_start + window_length - now), w1)
  else (Decision.allow, w1)

/-- Runs `check_and_consume` on a sequence of request times for one
admission key, returning the decisions in order and the final window. -/
def runRequests (ceiling window_length : Nat) (w : Option RateLimitWindow) :
    List Nat → List Decision × Option RateLimitWindow
  | [] => ([], w)
  | t :: rest =>
    let r := check_and_consume ceiling window_length t w
    let rs := runRequests ceiling window_length (some r.2) rest
    (r.1 :: rs.1, rs.2)

/-- One file of a paste document: a name, contents, and an optional
language hint. -/
structure PasteFile where
  name : String
  content : String
  hint : Option String := none
  deriving DecidableEq

/-- A stored paste document. -/
structure PasteDocument where
  id : String
  files : List PasteFile
  created_at : Nat
  expires_at : Option Nat
  owner_token : Option String
  deriving DecidableEq

/-- Serialized size of one file. -/
def fileSize (f : PasteFile) : Nat :=
  f.name.length + f.content.length

/-- Total serialized size of a list of files. -/
def totalSize (fs : List PasteFile) : Nat :=
  (fs.map fileSize).sum

/-- Looks an identifier up in the store. -/
def storeLookup (s : List PasteDocument) (pid : String) : Option PasteDocument :=
  s.find? (fun d => d.id == pid)

/-- Whether a document is tombstoned at time `now`: `expires_at` is
present and in the past. -/
def expiredAt (d : PasteDocument) (now : Nat) : Bool :=
  match d.expires_at with
  | none => false
  | some e => e < now

/-- Modelled from the spec: `GetPaste(id)`; the paste router is not among
the provided sources. Returns the document unless the id was never issued
or the document is expired/tombstoned, in which case it reports not
found (`none`). -/
def GetPaste (s : List PasteDocument) (pid : String) (now : Nat) : Option PasteDocument :=
  match storeLookup s pid with
  | none => none
  | some d => if expiredAt d now then none else some d

/-- Modelled from the spec: the caller-visible response of `GetPaste`;
whenever the lookup fails, for any cause, the pipeline answers with the
`NotFound` model of models/errors.py, whose only field is the constant
string "Not Found". -/
def getPasteResponse (s : List PasteDocument) (pid : String) (now : Nat) :
    Except NotFound PasteDocument :=
  match GetPaste s pid now with
  | none => Except.error {}
  | some d => Except.ok d

/-- Validation and allocation failures of a create request. -/
inductive CreateError where
  | emptyFiles : CreateError
  | tooLarge : CreateError
  | idConflict : CreateError
  deriving DecidableEq

/-- Modelled from the spec: `CreatePaste(files, expires_at?, owner_token?)`
with the candidate identifier `pid` proposed by the allocator; the paste
router and store are not among the provided sources. Validates that the
file list is non-empty and the total size is within the cap, enforces
identifier uniqueness against the store, and inserts the new document. -/
def CreatePaste (maxSize : Nat) (s : List PasteDocument) (pid : String)
    (files : List PasteFile) (ea : Option Nat) (ot : Option String) (now : Nat) :
    Except CreateError (PasteDocument × List PasteDocument) :=
  if files.isEmpty then Except.error CreateError.emptyFiles
  else if maxSize < totalSize files then Except.error CreateError.tooLarge
  else if (storeLookup s pid).isSome then Except.error CreateError.idConflict
  else
    let d : PasteDocument :=
      { id := pid, files := files, created_at := now, expires_at := ea, owner_token := ot }
    Except.ok (d, d :: s)

/-- Errors surfaced by the request pipeline on a create request. -/
inductive PipelineError where
  | rateLimited (retry_after : Nat) : PipelineError
  | validationError : PipelineError
  | allocationConflict : PipelineError
  deriving DecidableEq

/-- Modelled from the spec: the request pipeline for a create request:
consult the admission controller first, short-circuit on deny with the
retry-after duration, otherwise dispatch to `CreatePaste`. -/
def pipelineCreate (ceiling window_length maxSize : Nat) (w : Option RateLimitWindow)
    (s : List PasteDocument) (pid : String) (files : List PasteFile)
    (ea : Option Nat) (ot : Option String) (now : Nat) :
    Except PipelineError (PasteDocument × List PasteDocument × RateLimitWindow) :=
  match check_and_consume ceiling window_length now w with
  | (Decision.deny r, _) => Except.error (PipelineError.rateLimited r)
  | (Decision.allow, w1) =>
    match CreatePaste maxSize s pid files ea ot now with
    | Except.error CreateError.emptyFiles => Except.error PipelineError.validationError
    | Except.error CreateError.tooLarge => Except.error PipelineError.validationError
    | Except.error CreateError.idConflict => Except.error PipelineError.allocationConflict
    | Except.ok (d, s1) => Except.ok (d, s1, w1)

/-- The middleware increments `total` by exactly one on every request,
whatever the path. -/
theorem request_stats_total_succ (p : String) (t : Nat) (st : RequestStats) :
    (request_stats p t st).total = st.total + 1 := by
  unfold request_stats
  split <;> rfl

/-- Over a sequence of handled requests, `total` grows by the length of
the sequence. -/
theorem handleRequests_total (reqs : List (String × Nat)) (st : RequestStats) :
    (handleRequests reqs st).total = st.total + reqs.length := by
  induction reqs generalizing st with
  | nil => rfl
  | cons r rs ih =>
    rw [handleRequests, ih, request_stats_total_succ]
    simp
    omega

/-- C1 counterexample: a request to the stats endpoint "/admin/stats"
does increase the `total` counter (from 0 to 1), contradicting the claim
that requests to the introspection/stats endpoint do not increase it:
the middleware increments `total` unconditionally and only exempts the
`latest` update. -/
theorem stats_endpoint_is_counted :
    (request_stats "/admin/stats" 5 { total := 0, latest := 0 }).total = 1 := by
  decide

/-- C1 (amended): `GetStats().total_requests` increases by exactly the
number of calls made, counting every request including those to the
stats endpoint itself. -/
theorem total_counts_every_request (reqs : List (String × Nat)) (st : RequestStats) :
    (GetStats (handleRequests reqs st)).1 = st.total + reqs.length := by
  show (handleRequests reqs st).total = st.total + reqs.length
  exact handleRequests_total reqs st

/-- C2 counterexample: a request to the metrics endpoint "/metrics/"
changes the `latest` timestamp (from 0 to 7), contradicting the claim
that metrics requests leave it unchanged: the middleware only exempts
the exact path "/admin/stats". -/
theorem metrics_endpoint_updates_latest :
    (request_stats "/metrics/" 7 { total := 0, latest := 0 }).latest ≠ 0 := by
  decide

/-- C2 (amended): the `latest` timestamp is left unchanged exactly for
requests whose path is "/admin/stats"; every other path, including
"/metrics/", updates it to the current time. -/
theorem latest_excludes_only_stats_endpoint (p : String) (now : Nat) (st : RequestStats) :
    (p = "/admin/stats" → (request_stats p now st).latest = st.latest) ∧
    (p ≠ "/admin/stats" → (request_stats p now st).latest = now) := by
  constructor
  · intro h
    subst h
    simp [request_stats]
  · intro h
    simp [request_stats, h]

/-- C2 witness: the amended claim instantiated at the metrics path. -/
theorem latest_excludes_only_stats_endpoint_witness :
    (request_stats "/metrics/" 3 { total := 0, latest := 0 }).latest = 3 :=
  (latest_excludes_only_stats_endpoint "/metrics/" 3 { total := 0, latest := 0 }).2 (by decide)

/-- C5: the `total` counter is monotone: each handled request increases
it by exactly one, and over any sequence of handled requests (the only
operations that touch it after startup) it never decreases. -/
theorem total_monotone :
    (∀ (p : String) (t : Nat) (st : RequestStats),
      (request_stats p t st).total = st.total + 1) ∧
    (∀ (reqs : List (String × Nat)) (st : RequestStats),
      st.total ≤ (handleRequests reqs st).total) := by
  refine ⟨request_stats_total_succ, ?_⟩
  intro reqs st
  rw [handleRequests_total]
  omega

/-- C6: `app_startup` initializes the request statistics to a zero total
and the startup time as `latest`, before any request is handled. -/
theorem app_startup_initializes (now : Nat) :
    (app_startup now).total = 0 ∧ (app_startup now).latest = now :=
  ⟨rfl, rfl⟩

/-- C8 counterexample: with `should_close` constantly true and `on_tick`
constantly false, the pre-loop check (which consults only `on_tick`) does
not exit, and the loop body executes one full iteration (the counter
advances to 1) before the first in-loop check exits; this contradicts
the claim that the loop continues only while `should_close` is false and
exits on the first evaluation where either condition fails. -/
theorem main_loop_initial_check_ignores_flag :
    (main_loop_run (fun _ => false) (fun _ => true) 0).shouldExit = false ∧
    (main_loop_run (fun _ => false) (fun _ => true) 1).counter = 1 := by
  exact ⟨rfl, rfl⟩

/-- C8 (amended): if `should_close` is true and remains true,
`main_loop` terminates: every in-loop check sets `should_exit` when
`on_tick` returns true or `should_close` is true, so the loop has exited
after its first iteration (even though the pre-loop check consults only
`on_tick` and may admit that one iteration). -/
theorem main_loop_terminates_with_flag (on_tick : Nat → Bool) (should_close : Nat → Bool)
    (h : ∀ j, should_close j = true) (k : Nat) (hk : 1 ≤ k) :
    (main_loop_run on_tick should_close k).shouldExit = true := by
  match k, hk with
  | j + 1, _ =>
    show (main_loop_step on_tick (should_close j) (main_loop_run on_tick should_close j)).shouldExit = true
    unfold main_loop_step
    split
    · assumption
    · simp [h j]

/-- C8 witness: the amended claim at `on_tick` constantly false,
`should_close` constantly true, after one iteration. -/
theorem main_loop_terminates_with_flag_witness :
    (main_loop_run (fun _ => false) (fun _ => true) 1).shouldExit = true :=
  main_loop_terminates_with_flag (fun _ => false) (fun _ => true) (fun _ => rfl) 1 (Nat.le_refl 1)

/-- C9: in every reachable state of `main_loop`, the tick counter (the
value passed to `on_tick`) is below 864000: it wraps modulo 864000 and
never grows without bound (being a natural number it is also at least
zero). -/
theorem main_loop_counter_bounded (on_tick : Nat → Bool) (should_close : Nat → Bool) (k : Nat) :
    (main_loop_run on_tick should_close k).counter < 864000 := by
  induction k with
  | zero => show (0 : Nat) < 864000; decide
  | succ j ih =>
    show (main_loop_step on_tick (should_close j) (main_loop_run on_tick should_close j)).counter < 864000
    unfold main_loop_step
    split
    · exact ih
    · exact Nat.mod_lt _ (by decide)

/-- C10: `MystbinApp.__init__` sets `should_close` to false, no visible
operation (request handling or startup) ever changes it, and with the
flag permanently false the serving loop cannot exit unless `on_tick`
itself returns true. -/
theorem should_close_never_set :
    (∀ (now : Nat) (ops : List VisibleOp),
      (applyOps ops (mystbin_init now)).should_close = false) ∧
    (∀ (on_tick : Nat → Bool) (k : Nat), (∀ j, on_tick j = false) →
      (main_loop_run on_tick (fun _ => false) k).shouldExit = false) := by
  constructor
  · have hgen : ∀ (ops : List VisibleOp) (a : MystbinApp),
        (applyOps ops a).should_close = a.should_close := by
      intro ops
      induction ops with
      | nil => intro a; rfl
      | cons op rest ih =>
        intro a
        rw [applyOps, ih]
        cases op <;> rfl
    intro now ops
    rw [hgen]
    rfl
  · intro on_tick k h
    induction k with
    | zero => exact h 0
    | succ j ih =>
      show (main_loop_step on_tick false (main_loop_run on_tick (fun _ => false) j)).shouldExit = false
      unfold main_loop_step
      split
      · exact ih
      · simp [h]

/-- Admission of a request at time `now` within an existing window whose
count is still below the ceiling: the window is kept and its count
incremented, and the request is allowed. -/
theorem check_and_consume_allow (ceiling len now t0 c : Nat)
    (hnow : now ≤ t0 + len) (hc : c + 1 ≤ ceiling) :
    check_and_consume ceiling len now (some { window_start := t0, count := c }) =
      (Decision.allow, { window_start := t0, count := c + 1 }) := by
  unfold check_and_consume
  have h1 : ¬ (now > t0 + len) := by omega
  have h2 : ¬ (c + 1 > ceiling) := by omega
  simp [h1, h2]

/-- Admission of a request at time `now` within an existing window whose
incremented count exceeds the ceiling: the request is denied with
`retry_after = window_start + window_length - now`. -/
theorem check_and_consume_deny (ceiling len now t0 c : Nat)
    (hnow : now ≤ t0 + len) (hc : c + 1 > ceiling) :
    check_and_consume ceiling len now (some { window_start := t0, count := c }) =
      (Decision.deny (t0 + len - now), { window_start := t0, count := c + 1 }) := by
  unfold check_and_consume
  have h1 : ¬ (now > t0 + len) := by omega
  simp [h1, hc]

/-- The first request from a key (no window yet) opens a window anchored
at the current time and is allowed whenever the ceiling is at least 1. -/
theorem check_and_consume_first (ceiling len now : Nat) (hc : 1 ≤ ceiling) :
    check_and_consume ceiling len now none =
      (Decision.allow, { window_start := now, count := 1 }) := by
  unfold check_and_consume
  have h2 : ¬ (0 + 1 > ceiling) := by omega
  simp [h2]

/-- A run of requests all falling inside an existing window, with enough
remaining quota, is allowed throughout and only advances the count. -/
theorem runRequests_all_allowed (ceiling len t0 : Nat) (ts : List Nat) :
    ∀ c : Nat, (∀ t ∈ ts, t ≤ t0 + len) → c + ts.length ≤ ceiling →
    runRequests ceiling len (some { window_start := t0, count := c }) ts =
      (List.replicate ts.length Decision.allow,
        some { window_start := t0, count := c + ts.length }) := by
  induction ts with
  | nil =>
    intro c _ _
    simp [runRequests]
  | cons t rest ih =>
    intro c hts hc
    have ht : t ≤ t0 + len := hts t (List.mem_cons_self t rest)
    have hc1 : c + 1 ≤ ceiling := by
      simp only [List.length_cons] at hc
      omega
    have hrest : ∀ x ∈ rest, x ≤ t0 + len := fun x hx => hts x (List.mem_cons_of_mem t hx)
    have hc2 : (c + 1) + rest.length ≤ ceiling := by
      simp only [List.length_cons] at hc
      omega
    rw [runRequests]
    simp only [check_and_consume_allow ceiling len t t0 c ht hc1, ih (c + 1) hrest hc2,
      List.length_cons, List.replicate_succ]
    have harith : c + 1 + rest.length = c + (rest.length + 1) := by omega
    rw [harith]

/-- C3: (spec-modelled admission controller) starting with no window, a
sequence of `N = rest.length + 1` requests with `N ≤ ceiling`, all within
the window opened by the first request, is entirely allowed and leaves a
window with count `N`; and when `N` equals the ceiling, one further
request within the same window is denied with
`retry_after = window_start + window_length - now`, which is strictly
positive. -/
theorem rate_limit_ceiling (ceiling len t1 t : Nat) (rest : List Nat)
    (hrest : ∀ x ∈ rest, x ≤ t1 + len)
    (hle : rest.length + 1 ≤ ceiling)
    (ht : t < t1 + len) :
    (runRequests ceiling len none (t1 :: rest)).1 =
      List.replicate (rest.length + 1) Decision.allow ∧
    (runRequests ceiling len none (t1 :: rest)).2 =
      some { window_start := t1, count := rest.length + 1 } ∧
    (rest.length + 1 = ceiling →
      check_and_consume ceiling len t (some { window_start := t1, count := ceiling }) =
        (Decision.deny (t1 + len - t), { window_start := t1, count := ceiling + 1 }) ∧
      0 < t1 + len - t) := by
  have hfirst := check_and_consume_first ceiling len t1 (by omega)
  have hrun := runRequests_all_allowed ceiling len t1 rest 1 hrest (by omega)
  refine ⟨?_, ?_, ?_⟩
  · rw [runRequests]
    simp only [hfirst, hrun, List.replicate_succ]
  · rw [runRequests]
    simp only [hfirst, hrun]
    congr 2
    omega
  · intro hceil
    refine ⟨check_and_consume_deny ceiling len t t1 ceiling (by omega) (by omega), by omega⟩

/-- C3 witness: ceiling 2, window length 10: requests at times 0 and 3
are allowed, and a third request at time 5 within the same window is
denied with retry-after 5 > 0. -/
theorem rate_limit_ceiling_witness :
    (runRequests 2 10 none (0 :: [3])).1 = List.replicate 2 Decision.allow ∧
    (runRequests 2 10 none (0 :: [3])).2 = some { window_start := 0, count := 2 } ∧
    (2 = 2 →
      check_and_consume 2 10 5 (some { window_start := 0, count := 2 }) =
        (Decision.deny (0 + 10 - 5), { window_start := 0, count := 2 + 1 }) ∧
      0 < 0 + 10 - 5) :=
  rate_limit_ceiling 2 10 0 5 [3]
    (by intro x hx; simp at hx; omega) (by simp) (by omega)

/-- C10 witness: the invariant instantiated on the empty operation
sequence and on a loop whose `on_tick` is constantly false. -/
theorem should_close_never_set_witness :
    (applyOps [] (mystbin_init 0)).should_close = false ∧
    (main_loop_run (fun _ => false) (fun _ => false) 3).shouldExit = false :=
  ⟨should_close_never_set.1 0 [], should_close_never_set.2 (fun _ => false) 3 (fun _ => rfl)⟩

/-- A successful `CreatePaste` stores exactly the submitted document,
freshly created at `now`, at the head of the store. -/
theorem CreatePaste_ok (maxSize : Nat) (s : List PasteDocument) (pid : String)
    (files : List PasteFile) (ea : Option Nat) (ot : Option String) (now : Nat)
    (d : PasteDocument) (s1 : List PasteDocument)
    (h : CreatePaste maxSize s pid files ea ot now = Except.ok (d, s1)) :
    d = { id := pid, files := files, created_at := now, expires_at := ea, owner_token := ot } ∧
    s1 = d :: s := by
  unfold CreatePaste at h
  split at h
  · exact Except.noConfusion h
  · split at h
    · exact Except.noConfusion h
    · split at h
      · exact Except.noConfusion h
      · simp only [Except.ok.injEq, Prod.mk.injEq] at h
        obtain ⟨h1, h2⟩ := h
        subst h1
        exact ⟨rfl, h2.symm⟩

/-- A successful pipeline create means the admission controller allowed
the request and `CreatePaste` succeeded with the returned document and
store. -/
theorem pipelineCreate_ok (ceiling len maxSize : Nat) (w : Option RateLimitWindow)
    (s : List PasteDocument) (pid : String) (files : List PasteFile)
    (ea : Option Nat) (ot : Option String) (now : Nat)
    (d : PasteDocument) (s1 : List PasteDocument) (w1 : RateLimitWindow)
    (h : pipelineCreate ceiling len maxSize w s pid files ea ot now =
      Except.ok (d, s1, w1)) :
    CreatePaste maxSize s pid files ea ot now = Except.ok (d, s1) := by
  unfold pipelineCreate at h
  split at h
  · exact Except.noConfusion h
  · split at h
    · exact Except.noConfusion h
    · exact Except.noConfusion h
    · exact Except.noConfusion h
    · rename_i heq
      simp only [Except.ok.injEq, Prod.mk.injEq] at h
      obtain ⟨h1, h2, h3⟩ := h
      subst h1
      subst h2
      exact heq

/-- Retrieving the identifier of a non-expired document at the head of
the store returns that document. -/
theorem GetPaste_cons_self (d : PasteDocument) (s : List PasteDocument) (now : Nat)
    (h : expiredAt d now = false) :
    GetPaste (d :: s) d.id now = some d := by
  unfold GetPaste storeLookup
  rw [List.find?_cons_of_pos _ (by simp)]
  simp [h]

/-- A document whose optional expiry is not in the past is not expired. -/
theorem expiredAt_false (d : PasteDocument) (now : Nat)
    (h : ∀ e, d.expires_at = some e → now ≤ e) : expiredAt d now = false := by
  unfold expiredAt
  cases hd : d.expires_at with
  | none => rfl
  | some e =>
    have := h e hd
    simp only [decide_eq_false_iff_not]
    omega

/-- C4: (spec-modelled store and pipeline) a create request that is
admitted below the ceiling and passes validation, whose requested expiry
(if any) is not already in the past, is immediately visible: `GetPaste`
on the returned id yields exactly the submitted document
(read-your-writes round-trip). -/
theorem create_get_roundtrip (ceiling len maxSize : Nat) (w : Option RateLimitWindow)
    (s : List PasteDocument) (pid : String) (files : List PasteFile)
    (ea : Option Nat) (ot : Option String) (now : Nat)
    (d : PasteDocument) (s1 : List PasteDocument) (w1 : RateLimitWindow)
    (hexp : ∀ e, ea = some e → now ≤ e)
    (hok : pipelineCreate ceiling len maxSize w s pid files ea ot now =
      Except.ok (d, s1, w1)) :
    GetPaste s1 d.id now = some d ∧ d.files = files ∧ d.expires_at = ea ∧
      d.owner_token = ot ∧ d.created_at = now := by
  have hcr := pipelineCreate_ok ceiling len maxSize w s pid files ea ot now d s1 w1 hok
  obtain ⟨hd, hs⟩ := CreatePaste_ok maxSize s pid files ea ot now d s1 hcr
  subst hd
  subst hs
  refine ⟨?_, rfl, rfl, rfl, rfl⟩
  apply GetPaste_cons_self
  apply expiredAt_false
  intro e he
  exact hexp e he

/-- C4 witness: creating a single-file paste "hello" in an empty store
and reading it back through the pipeline at the same instant. -/
theorem create_get_roundtrip_witness :
    GetPaste
        [{ id := "abc12345", files := [{ name := "a.txt", content := "hello", hint := none }],
           created_at := 0, expires_at := none, owner_token := none }] "abc12345" 0 =
      some { id := "abc12345", files := [{ name := "a.txt", content := "hello", hint := none }],
             created_at := 0, expires_at := none, owner_token := none } :=
  (create_get_roundtrip 5 10 100 none [] "abc12345"
      [{ name := "a.txt", content := "hello", hint := none }] none none 0
      { id := "abc12345", files := [{ name := "a.txt", content := "hello", hint := none }],
        created_at := 0, expires_at := none, owner_token := none }
      [{ id := "abc12345", files := [{ name := "a.txt", content := "hello", hint := none }],
         created_at := 0, expires_at := none, owner_token := none }]
      { window_start := 0, count := 1 }
      (by intro e he; cases he) rfl).1

/-- C7: whenever two `GetPaste` runs both fail — for any reason: the id
was never issued, or the document is expired, or it is tombstoned — the
caller-visible error payloads of the two runs are identical, namely the
constant `NotFound` body with the fixed string "Not Found"; nothing
about the cause leaks to the caller. -/
theorem not_found_indistinguishable (s1 : List PasteDocument) (p1 : String) (n1 : Nat)
    (s2 : List PasteDocument) (p2 : String) (n2 : Nat)
    (h1 : GetPaste s1 p1 n1 = none) (h2 : GetPaste s2 p2 n2 = none) :
    getPasteResponse s1 p1 n1 = getPasteResponse s2 p2 n2 ∧
    getPasteResponse s1 p1 n1 = Except.error { error := "Not Found" } := by
  unfold getPasteResponse
  rw [h1, h2]
  exact ⟨rfl, rfl⟩

/-- C7 witness: a never-issued id (empty store) and an expired document
(expiry 5, read at time 10) produce the same error payload. -/
theorem not_found_indistinguishable_witness :
    getPasteResponse [] "abc" 0 =
      getPasteResponse
        [{ id := "abc", files := [{ name := "a", content := "x", hint := none }],
           created_at := 0, expires_at := some 5, owner_token := none }] "abc" 10 :=
  (not_found_indistinguishable [] "abc" 0
      [{ id := "abc", files := [{ name := "a", content := "x", hint := none }],
         created_at := 0, expires_at := some 5, owner_token := none }] "abc" 10
      rfl rfl).1

end MystBin
